import Mathlib

/-!
Verification development for the brain-hijack-v5 trading engine.

The definitions below are shallow embeddings of the TypeScript sources:
* `calculateAcceleration`, `safeVolume`, `hijackForceOf`
  — src/modules/sentiment/sentiment.service.ts (force computation);
* `TradingConfig`, `DEFAULT_CONFIG`, `ConfigService.*`
  — src/shared/config.service.ts;
* `PaperV1.*` — src/modules/execution/paper.service.ts (sniper paper trading);
* `PaperRevised.*` — the revised PaperService (narrative fusion + take-profit);
* `AutoTrader.*` — src/modules/execution/autotrader.service.ts;
* `Backtest.*` — src/modules/analytics/backtest.service.ts.

JavaScript numbers are modelled as `ℚ` (and as `ℝ` where `Math.log10`
appears); the `paper_trades` table is a list of `Position` rows.
-/

namespace BrainHijack

/-! ## Force computation (sentiment.service.ts lines 6-20, 61-73)

`calculateAcceleration` is the central finite-difference second derivative:
for each interior index the loop pushes `(s_next - 2*s_curr + s_prev) / h^2`.
The leaderboard computation takes the last acceleration (`|| 0`), and
multiplies its absolute value by `log10(volume)` when `volume > 1`, else 0. -/

def calculateAcceleration {α : Type} [Field α] (h : α) : List α → List α
  | [] => []
  | [_] => []
  | [_, _] => []
  | s_prev :: s_curr :: s_next :: rest =>
      (s_next - 2 * s_curr + s_prev) / h ^ 2 ::
        calculateAcceleration h (s_curr :: s_next :: rest)
termination_by l => l.length

/-- `accelerations[accelerations.length - 1] || 0` -/
noncomputable def currentAccelOf (prices : List ℝ) : ℝ :=
  ((calculateAcceleration 1 prices).getLast?).getD 0

/-- `const safeVolume = latestVolume > 1 ? Math.log10(latestVolume) : 0` -/
noncomputable def safeVolume (latestVolume : ℝ) : ℝ :=
  if latestVolume > 1 then Real.logb 10 latestVolume else 0

/-- `const hijackForce = Math.abs(currentAccel) * safeVolume` -/
noncomputable def hijackForceOf (prices : List ℝ) (latestVolume : ℝ) : ℝ :=
  |currentAccelOf prices| * safeVolume latestVolume

theorem calculateAcceleration_cons {α : Type} [Field α] (h a b c : α)
    (rest : List α) :
    calculateAcceleration h (a :: b :: c :: rest) =
      (c - 2 * b + a) / h ^ 2 :: calculateAcceleration h (b :: c :: rest) := by
  rw [calculateAcceleration]

theorem calculateAcceleration_length {α : Type} [Field α] (h : α) (l : List α) :
    (calculateAcceleration h l).length = l.length - 2 := by
  induction l with
  | nil => simp [calculateAcceleration]
  | cons a tl ih =>
    cases tl with
    | nil => simp [calculateAcceleration]
    | cons b tl2 =>
      cases tl2 with
      | nil => simp [calculateAcceleration]
      | cons c rest =>
        rw [calculateAcceleration_cons]
        simp only [List.length_cons] at ih ⊢
        omega

theorem calculateAcceleration_getD {α : Type} [Field α] (h : α) (l : List α)
    (i : ℕ) (hi : i + 2 < l.length) :
    (calculateAcceleration h l).getD i 0 =
      (l.getD (i + 2) 0 - 2 * l.getD (i + 1) 0 + l.getD i 0) / h ^ 2 := by
  induction l generalizing i with
  | nil => simp at hi
  | cons a tl ih =>
    cases tl with
    | nil => simp at hi
    | cons b tl2 =>
      cases tl2 with
      | nil => simp at hi
      | cons c rest =>
        cases i with
        | zero => rw [calculateAcceleration_cons]; rfl
        | succ j =>
          have hj : j + 2 < (b :: c :: rest).length := by
            simp only [List.length_cons] at hi ⊢; omega
          have hrec := ih j hj
          rw [calculateAcceleration_cons, List.getD_cons_succ, hrec]
          rfl

/-! ## Runtime configuration (shared/config.service.ts) -/

/-- `interface TradingConfig` (config.service.ts lines 4-18). -/
structure TradingConfig where
  killSwitch : Bool
  paperTradingEnabled : Bool
  liveTradingEnabled : Bool
  entryThreshold : ℚ
  exitThreshold : ℚ
  stopLossPercent : ℚ
  takeProfitPercent : ℚ
  trailingStopEnabled : Bool
  trailingStopPercent : ℚ
  trailingActivation : ℚ
  requireNarrative : Bool
  maxOpenPositions : ℚ
  tradeSizeUsd : ℚ
  deriving DecidableEq, Repr

/-- `const DEFAULT_CONFIG` (config.service.ts lines 21-35). -/
def DEFAULT_CONFIG : TradingConfig where
  killSwitch := false
  paperTradingEnabled := true
  liveTradingEnabled := false
  entryThreshold := 8 / 100
  exitThreshold := 1 / 100
  stopLossPercent := -2
  takeProfitPercent := 3
  trailingStopEnabled := true
  trailingStopPercent := 3 / 2
  trailingActivation := 1
  requireNarrative := true
  maxOpenPositions := 5
  tradeSizeUsd := 1000

/-- A partial config update, i.e. the `Partial<TradingConfig>` request body:
`none` fields are absent from the update object. -/
structure ConfigUpdate where
  killSwitch : Option Bool := none
  paperTradingEnabled : Option Bool := none
  liveTradingEnabled : Option Bool := none
  entryThreshold : Option ℚ := none
  exitThreshold : Option ℚ := none
  stopLossPercent : Option ℚ := none
  takeProfitPercent : Option ℚ := none
  trailingStopEnabled : Option Bool := none
  trailingStopPercent : Option ℚ := none
  trailingActivation : Option ℚ := none
  requireNarrative : Option Bool := none
  maxOpenPositions : Option ℚ := none
  tradeSizeUsd : Option ℚ := none

namespace ConfigService

/-- `updateConfig`: `currentConfig = { ...currentConfig, ...updates }`
(config.service.ts lines 47-51).  The route handler (`updateConfig` in the
sentiment controller) passes `request.body` through unchanged. -/
def updateConfig (c : TradingConfig) (u : ConfigUpdate) : TradingConfig where
  killSwitch := u.killSwitch.getD c.killSwitch
  paperTradingEnabled := u.paperTradingEnabled.getD c.paperTradingEnabled
  liveTradingEnabled := u.liveTradingEnabled.getD c.liveTradingEnabled
  entryThreshold := u.entryThreshold.getD c.entryThreshold
  exitThreshold := u.exitThreshold.getD c.exitThreshold
  stopLossPercent := u.stopLossPercent.getD c.stopLossPercent
  takeProfitPercent := u.takeProfitPercent.getD c.takeProfitPercent
  trailingStopEnabled := u.trailingStopEnabled.getD c.trailingStopEnabled
  trailingStopPercent := u.trailingStopPercent.getD c.trailingStopPercent
  trailingActivation := u.trailingActivation.getD c.trailingActivation
  requireNarrative := u.requireNarrative.getD c.requireNarrative
  maxOpenPositions := u.maxOpenPositions.getD c.maxOpenPositions
  tradeSizeUsd := u.tradeSizeUsd.getD c.tradeSizeUsd

/-- `activateKillSwitch` (config.service.ts lines 54-59). -/
def activateKillSwitch (c : TradingConfig) : TradingConfig :=
  { c with killSwitch := true, paperTradingEnabled := false,
           liveTradingEnabled := false }

/-- `deactivateKillSwitch` (config.service.ts lines 62-66). -/
def deactivateKillSwitch (c : TradingConfig) : TradingConfig :=
  { c with killSwitch := false, paperTradingEnabled := true }

/-- `isPaperTradingAllowed` (config.service.ts lines 74-76). -/
def isPaperTradingAllowed (c : TradingConfig) : Bool :=
  !c.killSwitch && c.paperTradingEnabled

/-- `resetToDefaults` (config.service.ts lines 83-87). -/
def resetToDefaults (_c : TradingConfig) : TradingConfig :=
  DEFAULT_CONFIG

end ConfigService

/-! ## The position store (`paper_trades` table) -/

inductive Status where
  | OPEN
  | CLOSED
  deriving DecidableEq, Repr

/-- One row of `paper_trades`: columns `ticker, entry_price, quantity,
hijack_force_at_entry, status, exit_price, profit` (timestamps omitted). -/
structure Position where
  ticker : String
  entryPrice : ℚ
  quantity : ℚ
  forceAtEntry : ℚ
  status : Status
  exitPrice : Option ℚ
  profit : Option ℚ
  deriving DecidableEq, Repr

abbrev Store := List Position

/-- Predicate for `WHERE ticker = $1 AND status = 'OPEN'`. -/
def isOpenFor (t : String) (p : Position) : Prop :=
  p.ticker = t ∧ p.status = Status.OPEN

instance (t : String) (p : Position) : Decidable (isOpenFor t p) := by
  unfold isOpenFor; infer_instance

/-- Number of OPEN rows for a ticker. -/
def openForCount (s : Store) (t : String) : ℕ :=
  s.countP (fun p => decide (isOpenFor t p))

/-- `SELECT * ... WHERE ticker AND OPEN`, taking `res.rows[0]`. -/
def firstOpenFor (s : Store) (t : String) : Option Position :=
  s.find? (fun p => decide (isOpenFor t p))

/-- Global count of OPEN rows (`SELECT COUNT(*) ... WHERE status = 'OPEN'`). -/
def openCount (s : Store) : ℕ :=
  s.countP (fun p => decide (p.status = Status.OPEN))

/-- `pnlPercent = ((currentPrice - entryPrice) / entryPrice) * 100`. -/
def pnlPercent (entryPrice currentPrice : ℚ) : ℚ :=
  (currentPrice - entryPrice) / entryPrice * 100

/-- The CLOSED row written by the `UPDATE ... SET status='CLOSED',
exit_price=$1, profit=$2` statement, with
`profitUsd = (currentPrice - entryPrice) * quantity`. -/
def closePos (p : Position) (currentPrice : ℚ) : Position :=
  { p with status := Status.CLOSED,
           exitPrice := some currentPrice,
           profit := some ((currentPrice - p.entryPrice) * p.quantity) }

/-- Apply the closing UPDATE to the row selected by `res.rows[0]`
(the first OPEN row for the ticker). -/
def closeFirstOpenFor (t : String) (currentPrice : ℚ) : Store → Store
  | [] => []
  | p :: rest =>
      if isOpenFor t p then closePos p currentPrice :: rest
      else p :: closeFirstOpenFor t currentPrice rest

/-- `event_type` strings of the `hijack_archive` table and the exit-reason
strings of the exit rules. -/
inductive EventType where
  | ENTRY
  | TAKE_PROFIT
  | STOP_LOSS
  | MOMENTUM_DIED
  deriving DecidableEq, Repr

/-- A row of `hijack_archive` (recorded_at omitted). -/
structure HijackEvent where
  ticker : String
  price : ℚ
  force : ℚ
  narrativeScore : ℚ
  eventType : EventType
  deriving DecidableEq, Repr

/-! ## PaperService, original revision (modules/execution/paper.service.ts)

Module constants: `TRADE_SIZE_USD = 1000`, `ENTRY_THRESHOLD = 0.01`,
`EXIT_THRESHOLD = 0.005`, `STOP_LOSS_PERCENT = -2.0`.  The exit rules check
momentum death first, then stop loss; there is no take-profit rule. -/

namespace PaperV1

def TRADE_SIZE_USD : ℚ := 1000

def ENTRY_THRESHOLD : ℚ := 1 / 100

def EXIT_THRESHOLD : ℚ := 5 / 1000

def STOP_LOSS_PERCENT : ℚ := -2

/-- One row of the force leaderboard handed to `evaluateMarketState`. -/
structure LeaderboardEntry where
  ticker : String
  hijackForce : ℚ
  latestPrice : ℚ
  deriving DecidableEq, Repr

/-- `openPosition` (paper.service.ts lines 28-49): return unchanged when an
OPEN row for the ticker exists, otherwise insert a new OPEN row with
`quantity = TRADE_SIZE_USD / price`. -/
def openPosition (s : Store) (ticker : String) (price force : ℚ) : Store :=
  if 0 < openForCount s ticker then s
  else s ++ [{ ticker := ticker, entryPrice := price,
               quantity := TRADE_SIZE_USD / price, forceAtEntry := force,
               status := Status.OPEN, exitPrice := none, profit := none }]

/-- The exit-rule chain of `managePositions` (paper.service.ts lines 68-81):
momentum death first, then stop loss. -/
def exitDecision (pnl force : ℚ) : Option EventType :=
  if force < EXIT_THRESHOLD then some EventType.MOMENTUM_DIED
  else if pnl ≤ STOP_LOSS_PERCENT then some EventType.STOP_LOSS
  else none

/-- `managePositions` (paper.service.ts lines 52-96). -/
def managePositions (s : Store) (ticker : String) (currentPrice currentForce : ℚ) :
    Store :=
  match firstOpenFor s ticker with
  | none => s
  | some trade =>
      match exitDecision (pnlPercent trade.entryPrice currentPrice) currentForce with
      | some _ => closeFirstOpenFor ticker currentPrice s
      | none => s

/-- The body of the `evaluateMarketState` loop for one leaderboard row
(paper.service.ts lines 13-24): entry check, then exit check, with the same
price and force. -/
def evaluateAsset (s : Store) (a : LeaderboardEntry) : Store :=
  let s1 := if a.hijackForce > ENTRY_THRESHOLD then
              openPosition s a.ticker a.latestPrice a.hijackForce
            else s
  managePositions s1 a.ticker a.latestPrice a.hijackForce

/-- `evaluateMarketState` (paper.service.ts lines 12-25).  Note: no
configuration (and in particular no kill switch) is consulted anywhere on
this path. -/
def evaluateMarketState (leaderboard : List LeaderboardEntry) (s : Store) : Store :=
  leaderboard.foldl evaluateAsset s

end PaperV1

/-! ## PaperService, revised copy (narrative fusion + take-profit)

Module constants: `ENTRY_THRESHOLD = 0.08`, `EXIT_THRESHOLD = 0.01`,
`STOP_LOSS_PERCENT = -2.0`, `TAKE_PROFIT_PERCENT = 3.0`,
`REQUIRE_NARRATIVE = true`.  Exit rules in priority order: take profit,
stop loss, momentum died.  Entries and exits are archived to
`hijack_archive`. -/

namespace PaperRevised

def TRADE_SIZE_USD : ℚ := 1000

def ENTRY_THRESHOLD : ℚ := 8 / 100

def EXIT_THRESHOLD : ℚ := 1 / 100

def STOP_LOSS_PERCENT : ℚ := -2

def TAKE_PROFIT_PERCENT : ℚ := 3

def REQUIRE_NARRATIVE : Bool := true

/-- Revised `openPosition`: same duplicate-row guard and insert, plus an
ENTRY archive event. -/
def openPosition (s : Store) (ticker : String) (price force narrativeScore : ℚ) :
    Store × List HijackEvent :=
  if 0 < openForCount s ticker then (s, [])
  else
    (s ++ [{ ticker := ticker, entryPrice := price,
             quantity := TRADE_SIZE_USD / price, forceAtEntry := force,
             status := Status.OPEN, exitPrice := none, profit := none }],
     [{ ticker := ticker, price := price, force := force,
        narrativeScore := narrativeScore, eventType := EventType.ENTRY }])

/-- The revised exit-rule chain (`EXIT RULES (Priority order)`): take profit
first, then stop loss, then momentum died. -/
def exitDecision (pnl force : ℚ) : Option EventType :=
  if pnl ≥ TAKE_PROFIT_PERCENT then some EventType.TAKE_PROFIT
  else if pnl ≤ STOP_LOSS_PERCENT then some EventType.STOP_LOSS
  else if force < EXIT_THRESHOLD then some EventType.MOMENTUM_DIED
  else none

/-- Revised `managePositions`: on close, archive the exit event
(`archiveHijack(ticker, currentPrice, currentForce, 0, reason)`). -/
def managePositions (s : Store) (ticker : String) (currentPrice currentForce : ℚ) :
    Store × List HijackEvent :=
  match firstOpenFor s ticker with
  | none => (s, [])
  | some trade =>
      match exitDecision (pnlPercent trade.entryPrice currentPrice) currentForce with
      | some reason =>
          (closeFirstOpenFor ticker currentPrice s,
           [{ ticker := ticker, price := currentPrice, force := currentForce,
              narrativeScore := 0, eventType := reason }])
      | none => (s, [])

/-- Revised `evaluateMarketState` body for one leaderboard row: entry requires
`forceHigh && narrativeConfirms` where
`narrativeConfirms = !REQUIRE_NARRATIVE || narrativeScore >= 0`. -/
def evaluateAsset (s : Store) (a : PaperV1.LeaderboardEntry) (narrativeScore : ℚ) :
    Store :=
  let forceHigh := a.hijackForce > ENTRY_THRESHOLD
  let narrativeConfirms := !REQUIRE_NARRATIVE || decide (narrativeScore ≥ 0)
  let s1 := if forceHigh && narrativeConfirms then
              (openPosition s a.ticker a.latestPrice a.hijackForce narrativeScore).1
            else s
  (managePositions s1 a.ticker a.latestPrice a.hijackForce).1

end PaperRevised

/-! ## BacktestService (modules/analytics/backtest.service.ts)

The per-data-point position management of `runBacktest` (lines 113-166):
update the high-water mark, check the exit rules (take profit, stop loss,
momentum died — the maintained high-water mark is never read by any rule),
then check entry. -/

namespace Backtest

/-- `interface BacktestConfig` (dates and ticker filter omitted). -/
structure BacktestConfig where
  entryThreshold : ℚ
  exitThreshold : ℚ
  stopLossPercent : ℚ
  takeProfitPercent : ℚ
  tradeSizeUsd : ℚ
  deriving DecidableEq, Repr

/-- The `quickBacktest` default parameters (lines 276-284). -/
def quickBacktestConfig : BacktestConfig where
  entryThreshold := 8 / 100
  exitThreshold := 1 / 100
  stopLossPercent := -2
  takeProfitPercent := 3
  tradeSizeUsd := 1000

/-- The `openPositions` map entry for one ticker (entry time omitted). -/
structure BTPosition where
  entryPrice : ℚ
  force : ℚ
  highWaterMark : ℚ
  deriving DecidableEq, Repr

/-- `if (price > position.highWaterMark) position.highWaterMark = price`
(lines 119-121). -/
def updateHwm (pos : BTPosition) (price : ℚ) : BTPosition :=
  if price > pos.highWaterMark then { pos with highWaterMark := price } else pos

/-- The backtest exit conditions (lines 127-136). -/
def exitReason (cfg : BacktestConfig) (pnl force : ℚ) : Option EventType :=
  if pnl ≥ cfg.takeProfitPercent then some EventType.TAKE_PROFIT
  else if pnl ≤ cfg.stopLossPercent then some EventType.STOP_LOSS
  else if force < cfg.exitThreshold then some EventType.MOMENTUM_DIED
  else none

/-- One data point of the backtest loop for one ticker, given the hijack
force already computed from the trailing price window (lines 113-166).
Returns the new `openPositions` entry for the ticker and the recorded trade
`(exitReason, pnlUsd)` if an exit fired. -/
def step (cfg : BacktestConfig) (price force : ℚ) :
    Option BTPosition → Option BTPosition × Option (EventType × ℚ)
  | some pos =>
      let pos1 := updateHwm pos price
      let pnl := pnlPercent pos1.entryPrice price
      match exitReason cfg pnl force with
      | some r =>
          let pnlUsd := (price - pos1.entryPrice) * (cfg.tradeSizeUsd / pos1.entryPrice)
          if force > cfg.entryThreshold then
            (some { entryPrice := price, force := force, highWaterMark := price },
             some (r, pnlUsd))
          else (none, some (r, pnlUsd))
      | none => (some pos1, none)
  | none =>
      if force > cfg.entryThreshold then
        (some { entryPrice := price, force := force, highWaterMark := price }, none)
      else (none, none)

end Backtest

/-! ## AutoTraderService (modules/execution/autotrader.service.ts)

The multi-source signal fusion (`generateSignal`), the trade guard
(`canExecuteTrade`), the insert (`executeTrade`) and the scan loop gate
(`scan`).  External source reads (fear/greed, social, options, on-chain) may
fail; a failed read is omitted from the vote, modelled as `none`. -/

namespace AutoTrader

inductive Mode where
  | AGGRESSIVE
  | BALANCED
  | CONSERVATIVE
  deriving DecidableEq, Repr

/-- `interface BotConfig` (autotrader.service.ts lines 15-25). -/
structure BotConfig where
  enabled : Bool
  mode : Mode
  maxOpenPositions : ℚ
  positionSizeUsd : ℚ
  minMLConfidence : ℚ
  requireSentimentAlignment : Bool
  minAlignmentScore : ℚ
  cooldownMinutes : ℚ
  tradingHoursOnly : Bool
  deriving DecidableEq, Repr

/-- The initial `botConfig` (lines 55-65). -/
def initialBotConfig : BotConfig where
  enabled := false
  mode := Mode.BALANCED
  maxOpenPositions := 3
  positionSizeUsd := 100
  minMLConfidence := 55
  requireSentimentAlignment := true
  minAlignmentScore := 60
  cooldownMinutes := 30
  tradingHoursOnly := false

inductive Sig where
  | BULLISH
  | BEARISH
  | NEUTRAL
  deriving DecidableEq, Repr

inductive MLDirection where
  | UP
  | DOWN
  | NEUTRAL
  deriving DecidableEq, Repr

structure MLPrediction where
  ticker : String
  direction : MLDirection
  confidence : ℚ
  deriving DecidableEq, Repr

/-- `interface SignalSource` (display string omitted). -/
structure SignalSource where
  source : String
  signal : Sig
  weight : ℚ
  deriving DecidableEq, Repr

inductive TradeDirection where
  | LONG
  | SHORT
  deriving DecidableEq, Repr

/-- `interface TradeSignal` (timestamp omitted). -/
structure TradeSignal where
  ticker : String
  direction : TradeDirection
  confidence : ℚ
  alignmentScore : ℤ
  signals : List SignalSource
  price : ℚ
  deriving DecidableEq, Repr

/-- The values returned by the external source lookups inside one
`generateSignal` call; `none` when the lookup failed (its `catch` skips the
source). -/
structure SourceReads where
  fearGreed : Option ℚ
  social : Option ℚ
  options : Option Sig
  onchain : Option ℚ
  deriving DecidableEq, Repr

/-- `const baseTicker = ticker.replace('USD', '').replace('-USD', '')`. -/
def baseTickerOf (ticker : String) : String :=
  (ticker.replace "USD" "").replace "-USD" ""

/-- The options-flow eligibility test (line 257). -/
def optionsEligible (ticker : String) : Bool :=
  (["BTC", "ETH", "BTCUSD", "ETHUSD"].contains ticker) ||
    (["BTC", "ETH"].contains (baseTickerOf ticker))

/-- ML direction to vote: `UP ⇒ BULLISH`, `DOWN ⇒ BEARISH`, else NEUTRAL. -/
def mlVote : MLDirection → Sig
  | MLDirection.UP => Sig.BULLISH
  | MLDirection.DOWN => Sig.BEARISH
  | MLDirection.NEUTRAL => Sig.NEUTRAL

/-- `fg.value <= 25 ⇒ BULLISH`, `fg.value >= 75 ⇒ BEARISH` (lines 222-223). -/
def fearGreedVote (value : ℚ) : Sig :=
  if value ≤ 25 then Sig.BULLISH
  else if value ≥ 75 then Sig.BEARISH
  else Sig.NEUTRAL

/-- `social.score >= 2 ⇒ BULLISH`, `social.score <= -2 ⇒ BEARISH`. -/
def socialVote (score : ℚ) : Sig :=
  if score ≥ 2 then Sig.BULLISH
  else if score ≤ -2 then Sig.BEARISH
  else Sig.NEUTRAL

/-- `onchain.score >= 70 ⇒ BULLISH`, `onchain.score <= 40 ⇒ BEARISH`. -/
def onChainVote (score : ℚ) : Sig :=
  if score ≥ 70 then Sig.BULLISH
  else if score ≤ 40 then Sig.BEARISH
  else Sig.NEUTRAL

/-- The `signals` array built by `generateSignal` (lines 198-296), in push
order: ML prediction (weight 30), fear/greed (20), social sentiment (20),
options flow (15, BTC/ETH only), on-chain health (15). -/
def buildSignals (ml : MLPrediction) (env : SourceReads) : List SignalSource :=
  [{ source := "ML Predictor", signal := mlVote ml.direction, weight := 30 }]
  ++ (match env.fearGreed with
      | some v => [{ source := "Fear & Greed", signal := fearGreedVote v, weight := 20 }]
      | none => [])
  ++ (match env.social with
      | some sc => [{ source := "Social Sentiment", signal := socialVote sc, weight := 20 }]
      | none => [])
  ++ (if optionsEligible ml.ticker then
        match env.options with
        | some os => [{ source := "Options Flow", signal := os, weight := 15 }]
        | none => []
      else [])
  ++ (match env.onchain with
      | some sc => [{ source := "On-Chain", signal := onChainVote sc, weight := 15 }]
      | none => [])

/-- Sum of the weights contributed with a given vote. -/
def polarityWeight (g : Sig) (l : List SignalSource) : ℚ :=
  ((l.filter (fun s => decide (s.signal = g))).map (fun s => s.weight)).sum

def bullishWeight (l : List SignalSource) : ℚ := polarityWeight Sig.BULLISH l

def bearishWeight (l : List SignalSource) : ℚ := polarityWeight Sig.BEARISH l

/-- `totalWeight`: every pushed source adds its weight, NEUTRAL included. -/
def totalWeight (l : List SignalSource) : ℚ :=
  (l.map (fun s => s.weight)).sum

/-- `alignmentScore = totalWeight > 0 ?
Math.round((dominantWeight / totalWeight) * 100) : 0` (lines 300-301). -/
def alignmentScoreOf (l : List SignalSource) : ℤ :=
  if totalWeight l > 0 then
    round (max (bullishWeight l) (bearishWeight l) / totalWeight l * 100)
  else 0

/-- `generateSignal` (lines 194-328): build the weighted votes, direction is
`bullishWeight > bearishWeight ? LONG : SHORT`, and return `null` when fewer
than 3 sources contributed. -/
def generateSignal (ml : MLPrediction) (env : SourceReads) (price : ℚ) :
    Option TradeSignal :=
  if (buildSignals ml env).length < 3 then none
  else some { ticker := ml.ticker,
              direction := if bullishWeight (buildSignals ml env) >
                               bearishWeight (buildSignals ml env) then
                             TradeDirection.LONG
                           else TradeDirection.SHORT,
              confidence := ml.confidence,
              alignmentScore := alignmentScoreOf (buildSignals ml env),
              signals := buildSignals ml env, price := price }

/-- `canExecuteTrade` (lines 331-353). -/
def canExecuteTrade (bot : BotConfig) (s : Store) (sig : TradeSignal) : Bool :=
  if bot.maxOpenPositions ≤ (openCount s : ℚ) then false
  else if 0 < openForCount s sig.ticker then false
  else if bot.mode = Mode.CONSERVATIVE ∧ sig.direction = TradeDirection.SHORT then
    false
  else true

/-- `executeTrade` (lines 356-394): insert an OPEN row with
`quantity = positionSizeUsd / price` and
`hijack_force_at_entry = confidence / 100`. -/
def executeTrade (bot : BotConfig) (s : Store) (sig : TradeSignal) : Store :=
  s ++ [{ ticker := sig.ticker, entryPrice := sig.price,
          quantity := bot.positionSizeUsd / sig.price,
          forceAtEntry := sig.confidence / 100,
          status := Status.OPEN, exitPrice := none, profit := none }]

/-- An autotrader entry attempt as performed by the scan loop: the guarded
insert `if (canTrade) await executeTrade(signal)`. -/
def tryAutoEntry (bot : BotConfig) (s : Store) (sig : TradeSignal) : Store :=
  if canExecuteTrade bot s sig then executeTrade bot s sig else s

/-- The per-prediction environment of one scan pass: the ML prediction, the
source reads for its fusion call, the price lookup result and whether the
ticker is on cooldown. -/
structure ScanInput where
  prediction : MLPrediction
  env : SourceReads
  price : ℚ
  onCooldown : Bool
  deriving DecidableEq, Repr

/-- The body of the scan loop for one prediction (lines 163-183): skip on
cooldown, fuse, require `alignmentScore >= minAlignmentScore`, then the
guarded execute. -/
def processPrediction (bot : BotConfig) (s : Store) (inp : ScanInput) : Store :=
  if inp.onCooldown then s
  else
    match generateSignal inp.prediction inp.env inp.price with
    | none => s
    | some sig =>
        if (sig.alignmentScore : ℚ) ≥ bot.minAlignmentScore then
          tryAutoEntry bot s sig
        else s

/-- `scan` (lines 154-191): returns immediately unless
`botConfig.enabled && ConfigService.isPaperTradingAllowed()`. -/
def scan (cfg : TradingConfig) (bot : BotConfig) (inputs : List ScanInput)
    (s : Store) : Store :=
  if !bot.enabled || !ConfigService.isPaperTradingAllowed cfg then s
  else inputs.foldl (processPrediction bot) s

end AutoTrader

/-! ## Operation sequences over the position store

`Op` enumerates the store mutations of the decision engine: the two
`openPosition` revisions, the two `managePositions` revisions and the scan
loop's guarded autotrader entry.  `runOps` applies a sequence to the empty
table. -/

inductive Op where
  | paperOpen (ticker : String) (price force : ℚ)
  | paperOpenR (ticker : String) (price force narrative : ℚ)
  | manageV1 (ticker : String) (price force : ℚ)
  | manageR (ticker : String) (price force : ℚ)
  | autoEntry (bot : AutoTrader.BotConfig) (sig : AutoTrader.TradeSignal)

def applyOp (s : Store) : Op → Store
  | Op.paperOpen t price force => PaperV1.openPosition s t price force
  | Op.paperOpenR t price force n => (PaperRevised.openPosition s t price force n).1
  | Op.manageV1 t price force => PaperV1.managePositions s t price force
  | Op.manageR t price force => (PaperRevised.managePositions s t price force).1
  | Op.autoEntry bot sig => AutoTrader.tryAutoEntry bot s sig

def runOps (ops : List Op) : Store :=
  ops.foldl applyOp []

/-- The PaperService-only operations, for the entry/exit accounting facts. -/
inductive PaperOp where
  | openPos (ticker : String) (price force : ℚ)
  | openPosR (ticker : String) (price force narrative : ℚ)
  | manage (ticker : String) (price force : ℚ)
  | manageR (ticker : String) (price force : ℚ)

def applyPaperOp (s : Store) : PaperOp → Store
  | PaperOp.openPos t price force => PaperV1.openPosition s t price force
  | PaperOp.openPosR t price force n => (PaperRevised.openPosition s t price force n).1
  | PaperOp.manage t price force => PaperV1.managePositions s t price force
  | PaperOp.manageR t price force => (PaperRevised.managePositions s t price force).1

def runPaperOps (ops : List PaperOp) : Store :=
  ops.foldl applyPaperOp []

/-- The per-ticker uniqueness invariant of the store. -/
def AtMostOneOpenPerTicker (s : Store) : Prop :=
  ∀ t, openForCount s t ≤ 1

/-! ### Store helper lemmas -/

theorem openForCount_append (s₁ s₂ : Store) (t : String) :
    openForCount (s₁ ++ s₂) t = openForCount s₁ t + openForCount s₂ t :=
  List.countP_append _ _ _

theorem openForCount_cons (p : Position) (s : Store) (t : String) :
    openForCount (p :: s) t =
      openForCount s t + if isOpenFor t p then 1 else 0 := by
  simp [openForCount, List.countP_cons]

theorem openForCount_eq_zero {s : Store} {t : String} :
    openForCount s t = 0 ↔ ∀ p ∈ s, ¬ isOpenFor t p := by
  simp [openForCount, List.countP_eq_zero]

theorem firstOpenFor_eq_none {s : Store} {t : String} :
    firstOpenFor s t = none ↔ ∀ p ∈ s, ¬ isOpenFor t p := by
  simp [firstOpenFor, List.find?_eq_none]

theorem not_isOpenFor_closePos (t : String) (p : Position) (price : ℚ) :
    ¬ isOpenFor t (closePos p price) := by
  simp [isOpenFor, closePos]

theorem openForCount_closeFirstOpenFor_le (t : String) (price : ℚ)
    (s : Store) (t' : String) :
    openForCount (closeFirstOpenFor t price s) t' ≤ openForCount s t' := by
  induction s with
  | nil => simp [closeFirstOpenFor]
  | cons p rest ih =>
    by_cases hp : isOpenFor t p
    · rw [closeFirstOpenFor, if_pos hp, openForCount_cons, openForCount_cons,
        if_neg (not_isOpenFor_closePos t' p price)]
      omega
    · rw [closeFirstOpenFor, if_neg hp, openForCount_cons, openForCount_cons]
      omega

theorem mem_closeFirstOpenFor {t : String} {price : ℚ} {s : Store} {q : Position}
    (hq : q ∈ closeFirstOpenFor t price s) :
    q ∈ s ∨ ∃ p ∈ s, isOpenFor t p ∧ q = closePos p price := by
  induction s with
  | nil => simp [closeFirstOpenFor] at hq
  | cons p rest ih =>
    by_cases hp : isOpenFor t p
    · rw [closeFirstOpenFor, if_pos hp] at hq
      rcases List.mem_cons.mp hq with h | h
      · exact Or.inr ⟨p, List.mem_cons_self p rest, hp, h⟩
      · exact Or.inl (List.mem_cons.mpr (Or.inr h))
    · rw [closeFirstOpenFor, if_neg hp] at hq
      rcases List.mem_cons.mp hq with h | h
      · exact Or.inl (List.mem_cons.mpr (Or.inl h))
      · rcases ih h with h' | ⟨p', hp', hopen, heq⟩
        · exact Or.inl (List.mem_cons.mpr (Or.inr h'))
        · exact Or.inr ⟨p', List.mem_cons.mpr (Or.inr hp'), hopen, heq⟩

theorem firstOpenFor_append (s₁ s₂ : Store) (t : String) :
    firstOpenFor (s₁ ++ s₂) t = (firstOpenFor s₁ t).or (firstOpenFor s₂ t) := by
  simp [firstOpenFor, List.find?_append]

theorem firstOpenFor_cons (p : Position) (s : Store) (t : String) :
    firstOpenFor (p :: s) t =
      if isOpenFor t p then some p else firstOpenFor s t := by
  by_cases h : isOpenFor t p
  · rw [if_pos h]
    exact List.find?_cons_of_pos _ (by simpa using h)
  · rw [if_neg h]
    exact List.find?_cons_of_neg _ (by simpa using h)

/-! ### Preservation of the per-ticker uniqueness invariant -/

theorem openForCount_singleton (p : Position) (t : String) :
    openForCount [p] t = if isOpenFor t p then 1 else 0 := by
  simp [openForCount, List.countP_cons]

theorem atMostOne_insertOpen {s : Store} (hs : AtMostOneOpenPerTicker s)
    {t : String} (h0 : openForCount s t = 0) {p : Position}
    (hpt : p.ticker = t) :
    AtMostOneOpenPerTicker (s ++ [p]) := by
  intro t'
  rw [openForCount_append, openForCount_singleton]
  by_cases ht : t' = t
  · subst ht
    rw [h0]
    split <;> omega
  · have h1 := hs t'
    have hno : ¬ isOpenFor t' p := fun h => ht (by rw [← h.1, hpt])
    rw [if_neg hno]
    omega

theorem atMostOne_of_counts_le {s s' : Store}
    (hs : AtMostOneOpenPerTicker s)
    (hle : ∀ t, openForCount s' t ≤ openForCount s t) :
    AtMostOneOpenPerTicker s' :=
  fun t => le_trans (hle t) (hs t)

theorem atMostOne_openPosition {s : Store} (hs : AtMostOneOpenPerTicker s)
    (t : String) (price force : ℚ) :
    AtMostOneOpenPerTicker (PaperV1.openPosition s t price force) := by
  unfold PaperV1.openPosition
  split
  · exact hs
  · next h0 =>
      exact atMostOne_insertOpen hs (show openForCount s t = 0 by omega) rfl

theorem atMostOne_openPositionR {s : Store} (hs : AtMostOneOpenPerTicker s)
    (t : String) (price force n : ℚ) :
    AtMostOneOpenPerTicker (PaperRevised.openPosition s t price force n).1 := by
  unfold PaperRevised.openPosition
  split
  · exact hs
  · next h0 =>
      exact atMostOne_insertOpen hs (show openForCount s t = 0 by omega) rfl

theorem atMostOne_managePositions {s : Store} (hs : AtMostOneOpenPerTicker s)
    (t : String) (price force : ℚ) :
    AtMostOneOpenPerTicker (PaperV1.managePositions s t price force) := by
  unfold PaperV1.managePositions
  split
  · exact hs
  · split
    · exact atMostOne_of_counts_le hs
        (fun t' => openForCount_closeFirstOpenFor_le t price s t')
    · exact hs

theorem atMostOne_managePositionsR {s : Store} (hs : AtMostOneOpenPerTicker s)
    (t : String) (price force : ℚ) :
    AtMostOneOpenPerTicker (PaperRevised.managePositions s t price force).1 := by
  unfold PaperRevised.managePositions
  split
  · exact hs
  · split
    · exact atMostOne_of_counts_le hs
        (fun t' => openForCount_closeFirstOpenFor_le t price s t')
    · exact hs

theorem canExecuteTrade_no_open {bot : AutoTrader.BotConfig} {s : Store}
    {sig : AutoTrader.TradeSignal}
    (h : AutoTrader.canExecuteTrade bot s sig = true) :
    openForCount s sig.ticker = 0 := by
  unfold AutoTrader.canExecuteTrade at h
  split_ifs at h
  omega

theorem atMostOne_tryAutoEntry {s : Store} (hs : AtMostOneOpenPerTicker s)
    (bot : AutoTrader.BotConfig) (sig : AutoTrader.TradeSignal) :
    AtMostOneOpenPerTicker (AutoTrader.tryAutoEntry bot s sig) := by
  unfold AutoTrader.tryAutoEntry
  split
  · next hcan =>
      exact atMostOne_insertOpen hs (canExecuteTrade_no_open hcan) rfl
  · exact hs

theorem atMostOne_applyOp {s : Store} (hs : AtMostOneOpenPerTicker s) (op : Op) :
    AtMostOneOpenPerTicker (applyOp s op) := by
  cases op with
  | paperOpen t price force => exact atMostOne_openPosition hs t price force
  | paperOpenR t price force n => exact atMostOne_openPositionR hs t price force n
  | manageV1 t price force => exact atMostOne_managePositions hs t price force
  | manageR t price force => exact atMostOne_managePositionsR hs t price force
  | autoEntry bot sig => exact atMostOne_tryAutoEntry hs bot sig

theorem atMostOne_foldl {s : Store} (hs : AtMostOneOpenPerTicker s)
    (ops : List Op) : AtMostOneOpenPerTicker (ops.foldl applyOp s) := by
  induction ops generalizing s with
  | nil => exact hs
  | cons op rest ih => exact ih (atMostOne_applyOp hs op)

/-! ### Quantity and profit accounting (PaperService entry/exit) -/

/-- Every row carries `quantity = TRADE_SIZE_USD / entryPrice` as written at
entry time, and every CLOSED row carries
`profit = (exitPrice - entryPrice) * quantity`. -/
def QuantityProfitOk (s : Store) : Prop :=
  ∀ p ∈ s, p.quantity = PaperV1.TRADE_SIZE_USD / p.entryPrice ∧
    (p.status = Status.CLOSED →
      ∃ e, p.exitPrice = some e ∧
        p.profit = some ((e - p.entryPrice) * p.quantity))

theorem quantityProfitOk_append_open {s : Store} (hs : QuantityProfitOk s)
    {p : Position} (hq : p.quantity = PaperV1.TRADE_SIZE_USD / p.entryPrice)
    (hst : p.status = Status.OPEN) :
    QuantityProfitOk (s ++ [p]) := by
  intro q hqmem
  rcases List.mem_append.mp hqmem with h | h
  · exact hs q h
  · have hq' : q = p := by simpa using h
    subst hq'
    refine ⟨hq, fun hc => ?_⟩
    rw [hst] at hc
    cases hc

theorem quantityProfitOk_closeFirst {s : Store} (hs : QuantityProfitOk s)
    (t : String) (price : ℚ) :
    QuantityProfitOk (closeFirstOpenFor t price s) := by
  intro q hqmem
  rcases mem_closeFirstOpenFor hqmem with h | ⟨p, hp, _, heq⟩
  · exact hs q h
  · subst heq
    obtain ⟨hq, _⟩ := hs p hp
    exact ⟨hq, fun _ => ⟨price, rfl, rfl⟩⟩

theorem quantityProfitOk_openPosition {s : Store} (hs : QuantityProfitOk s)
    (t : String) (price force : ℚ) :
    QuantityProfitOk (PaperV1.openPosition s t price force) := by
  unfold PaperV1.openPosition
  split
  · exact hs
  · apply quantityProfitOk_append_open hs
    · rfl
    · rfl

theorem quantityProfitOk_openPositionR {s : Store} (hs : QuantityProfitOk s)
    (t : String) (price force n : ℚ) :
    QuantityProfitOk (PaperRevised.openPosition s t price force n).1 := by
  unfold PaperRevised.openPosition
  split
  · exact hs
  · apply quantityProfitOk_append_open hs
    · rfl
    · rfl

theorem quantityProfitOk_manage {s : Store} (hs : QuantityProfitOk s)
    (t : String) (price force : ℚ) :
    QuantityProfitOk (PaperV1.managePositions s t price force) := by
  unfold PaperV1.managePositions
  split
  · exact hs
  · split
    · exact quantityProfitOk_closeFirst hs t price
    · exact hs

theorem quantityProfitOk_manageR {s : Store} (hs : QuantityProfitOk s)
    (t : String) (price force : ℚ) :
    QuantityProfitOk (PaperRevised.managePositions s t price force).1 := by
  unfold PaperRevised.managePositions
  split
  · exact hs
  · split
    · exact quantityProfitOk_closeFirst hs t price
    · exact hs

theorem quantityProfitOk_applyPaperOp {s : Store} (hs : QuantityProfitOk s)
    (op : PaperOp) : QuantityProfitOk (applyPaperOp s op) := by
  cases op with
  | openPos t price force => exact quantityProfitOk_openPosition hs t price force
  | openPosR t price force n => exact quantityProfitOk_openPositionR hs t price force n
  | manage t price force => exact quantityProfitOk_manage hs t price force
  | manageR t price force => exact quantityProfitOk_manageR hs t price force

theorem quantityProfitOk_foldl {s : Store} (hs : QuantityProfitOk s)
    (ops : List PaperOp) : QuantityProfitOk (ops.foldl applyPaperOp s) := by
  induction ops generalizing s with
  | nil => exact hs
  | cons op rest ih => exact ih (quantityProfitOk_applyPaperOp hs op)

/-! ## Claim theorems -/

/-- C2.  For every sequence of entry attempts (`PaperService.openPosition` in
both revisions and the autotrader's guarded entry) and exit operations
(`managePositions` in both revisions), the store reached from the empty
`paper_trades` table holds at most one OPEN position per ticker. -/
theorem at_most_one_open_per_ticker (ops : List Op) :
    AtMostOneOpenPerTicker (runOps ops) := by
  have hbase : AtMostOneOpenPerTicker ([] : Store) := by
    intro t; simp [openForCount]
  exact atMostOne_foldl hbase ops

/-- C7.  In every store reachable by PaperService entries and exits, every
position's quantity equals `TRADE_SIZE_USD / entryPrice` as computed once at
entry (never recomputed), and every closed position's recorded profit equals
`(exitPrice - entryPrice) * quantity`. -/
theorem quantity_and_profit_exact (ops : List PaperOp) (p : Position)
    (hp : p ∈ runPaperOps ops) :
    p.quantity = PaperV1.TRADE_SIZE_USD / p.entryPrice ∧
    (p.status = Status.CLOSED →
      ∃ e, p.exitPrice = some e ∧
        p.profit = some ((e - p.entryPrice) * p.quantity)) := by
  have hbase : QuantityProfitOk ([] : Store) := by
    intro q hq; cases hq
  exact quantityProfitOk_foldl hbase ops p hp

/-- Witness for C7: open BTC at price 100 (quantity 10), then close it at
price 110 via the momentum rule; the closed row records profit 100. -/
theorem quantity_and_profit_exact_witness :
    ({ ticker := "BTC", entryPrice := 100, quantity := 10, forceAtEntry := 2,
       status := Status.CLOSED, exitPrice := some 110,
       profit := some 100 } : Position).quantity =
      PaperV1.TRADE_SIZE_USD /
        ({ ticker := "BTC", entryPrice := 100, quantity := 10, forceAtEntry := 2,
           status := Status.CLOSED, exitPrice := some 110,
           profit := some 100 } : Position).entryPrice :=
  (quantity_and_profit_exact
    [PaperOp.openPos "BTC" 100 2, PaperOp.manage "BTC" 110 0]
    { ticker := "BTC", entryPrice := 100, quantity := 10, forceAtEntry := 2,
      status := Status.CLOSED, exitPrice := some 110, profit := some 100 }
    (by
      have hrun : runPaperOps [PaperOp.openPos "BTC" 100 2,
          PaperOp.manage "BTC" 110 0] =
          [{ ticker := "BTC", entryPrice := 100, quantity := 10, forceAtEntry := 2,
             status := Status.CLOSED, exitPrice := some 110,
             profit := some 100 }] := by
        norm_num [runPaperOps, applyPaperOp, PaperV1.openPosition,
          PaperV1.managePositions, PaperV1.exitDecision, PaperV1.TRADE_SIZE_USD,
          PaperV1.EXIT_THRESHOLD, PaperV1.STOP_LOSS_PERCENT, openForCount,
          firstOpenFor_cons, isOpenFor, pnlPercent, closeFirstOpenFor, closePos,
          Position.mk.injEq]
      rw [hrun]
      exact List.mem_singleton.mpr rfl)).1

/-- C1 counterexample.  With the kill switch just activated (so
`killSwitch = true` and both trading flags forced off), the sniper path
`PaperService.evaluateMarketState` still creates an OPEN position on a
favorable leaderboard row: it consults no configuration at all, so the
claim "with kill switch ON, zero new positions are created" fails. -/
theorem killswitch_sniper_counterexample :
    (ConfigService.activateKillSwitch DEFAULT_CONFIG).killSwitch = true ∧
    ConfigService.isPaperTradingAllowed
      (ConfigService.activateKillSwitch DEFAULT_CONFIG) = false ∧
    openCount (PaperV1.evaluateMarketState
      [{ ticker := "BTC", hijackForce := 9 / 100, latestPrice := 100 }] []) = 1 := by
  refine ⟨rfl, rfl, ?_⟩
  norm_num [PaperV1.evaluateMarketState, PaperV1.evaluateAsset,
    PaperV1.openPosition, PaperV1.managePositions, PaperV1.exitDecision,
    PaperV1.ENTRY_THRESHOLD, PaperV1.EXIT_THRESHOLD, PaperV1.STOP_LOSS_PERCENT,
    PaperV1.TRADE_SIZE_USD, openForCount, openCount, firstOpenFor_cons,
    isOpenFor, pnlPercent, List.countP_cons]

/-- C1 (amended).  The autotrader scan path is gated on the kill switch:
whenever `killSwitch = true`, `isPaperTradingAllowed` is false and `scan`
returns the store unchanged, creating no position regardless of the
predictions, source reads, alignment or confidence.  (The sniper
`PaperService` path is NOT gated — see the counterexample.) -/
theorem scan_blocked_by_killswitch (cfg : TradingConfig)
    (bot : AutoTrader.BotConfig) (inputs : List AutoTrader.ScanInput)
    (s : Store) (h : cfg.killSwitch = true) :
    AutoTrader.scan cfg bot inputs s = s := by
  simp [AutoTrader.scan, ConfigService.isPaperTradingAllowed, h]

/-- Witness for the amended C1: a maximally favorable prediction (UP at
confidence 99, every source bullish, not on cooldown) produces no position
when the kill switch is active. -/
theorem scan_blocked_by_killswitch_witness :
    AutoTrader.scan (ConfigService.activateKillSwitch DEFAULT_CONFIG)
      { AutoTrader.initialBotConfig with enabled := true }
      [{ prediction := { ticker := "BTC", direction := AutoTrader.MLDirection.UP,
                         confidence := 99 },
         env := { fearGreed := some 10, social := some 5,
                  options := some AutoTrader.Sig.BULLISH, onchain := some 90 },
         price := 100, onCooldown := false }] [] = [] :=
  scan_blocked_by_killswitch _ _ _ _ rfl

/-- C8.  The configuration update endpoint performs a blind partial merge:
an out-of-range value such as a negative `maxOpenPositions` is merged
verbatim into the runtime config, producing the non-sensical threshold the
spec forbids. -/
theorem updateConfig_merges_negative_maxOpenPositions :
    (ConfigService.updateConfig DEFAULT_CONFIG
        { maxOpenPositions := some (-5) }).maxOpenPositions = -5 ∧
    (ConfigService.updateConfig DEFAULT_CONFIG
        { maxOpenPositions := some (-5) }).maxOpenPositions < 0 := by
  refine ⟨rfl, ?_⟩
  norm_num [ConfigService.updateConfig]

/-- C4.  The backtest maintains the high-water mark (`updateHwm` raises it
whenever the price exceeds it) but its exit evaluation never consults it:
at a state where the claimed trailing-stop condition holds under the default
config (trailing enabled, drawdown from the high-water mark
`(hwm - price)/hwm * 100 = 400/207 ≥ 1.5`, profit `1.5% ≥` the activation
threshold `1%`), `Backtest.step` fires no exit and leaves the position open. -/
theorem trailing_stop_never_fires :
    Backtest.updateHwm { entryPrice := 100, force := 1 / 5, highWaterMark := 100 }
        (207 / 2) =
      { entryPrice := 100, force := 1 / 5, highWaterMark := 207 / 2 } ∧
    DEFAULT_CONFIG.trailingStopEnabled = true ∧
    pnlPercent 100 (203 / 2) ≥ DEFAULT_CONFIG.trailingActivation ∧
    (207 / 2 - 203 / 2) / (207 / 2) * 100 ≥ DEFAULT_CONFIG.trailingStopPercent ∧
    Backtest.step Backtest.quickBacktestConfig (203 / 2) (1 / 20)
        (some { entryPrice := 100, force := 1 / 5, highWaterMark := 207 / 2 }) =
      (some { entryPrice := 100, force := 1 / 5, highWaterMark := 207 / 2 },
       none) := by
  refine ⟨?_, rfl, ?_, ?_, ?_⟩
  · norm_num [Backtest.updateHwm]
  · norm_num [pnlPercent, DEFAULT_CONFIG]
  · norm_num [DEFAULT_CONFIG]
  · norm_num [Backtest.step, Backtest.updateHwm, Backtest.exitReason,
      Backtest.quickBacktestConfig, pnlPercent]

/-- C3 counterexample.  In the original paper.service.ts exit evaluation the
momentum rule is checked FIRST and there is no take-profit rule: at
`pnlPercent = 10` (far above the 3% take-profit threshold) with
`currentForce = 0.001`, the position is closed with reason MOMENTUM_DIED,
not TAKE_PROFIT. -/
theorem exit_priority_v1_counterexample :
    (10 : ℚ) ≥ PaperRevised.TAKE_PROFIT_PERCENT ∧
    (10 : ℚ) ≥ DEFAULT_CONFIG.takeProfitPercent ∧
    PaperV1.exitDecision 10 (1 / 1000) = some EventType.MOMENTUM_DIED ∧
    PaperV1.exitDecision 10 (1 / 1000) ≠ some EventType.TAKE_PROFIT := by
  refine ⟨?_, ?_, ?_, ?_⟩
  · norm_num [PaperRevised.TAKE_PROFIT_PERCENT]
  · norm_num [DEFAULT_CONFIG]
  · norm_num [PaperV1.exitDecision, PaperV1.EXIT_THRESHOLD]
  · norm_num [PaperV1.exitDecision, PaperV1.EXIT_THRESHOLD]
    decide

/-- C3 (amended).  The REVISED exit evaluation (the `managePositions` copy
with take-profit, and likewise the backtest) applies its rules with
take-profit first: whenever `pnlPercent ≥ TAKE_PROFIT_PERCENT` the position
closes with reason TAKE_PROFIT even if stop-loss or momentum-died also hold;
stop-loss fires only when take-profit did not, momentum-died only after
both.  The ORIGINAL paper.service.ts evaluation instead checks momentum
death first, then stop loss, and has no take-profit rule. -/
theorem exit_priority_rules :
    (∀ pnl force : ℚ, pnl ≥ PaperRevised.TAKE_PROFIT_PERCENT →
        PaperRevised.exitDecision pnl force = some EventType.TAKE_PROFIT) ∧
    (∀ pnl force : ℚ, ¬ pnl ≥ PaperRevised.TAKE_PROFIT_PERCENT →
        pnl ≤ PaperRevised.STOP_LOSS_PERCENT →
        PaperRevised.exitDecision pnl force = some EventType.STOP_LOSS) ∧
    (∀ pnl force : ℚ, ¬ pnl ≥ PaperRevised.TAKE_PROFIT_PERCENT →
        ¬ pnl ≤ PaperRevised.STOP_LOSS_PERCENT →
        force < PaperRevised.EXIT_THRESHOLD →
        PaperRevised.exitDecision pnl force = some EventType.MOMENTUM_DIED) ∧
    (∀ pnl force : ℚ, ¬ pnl ≥ PaperRevised.TAKE_PROFIT_PERCENT →
        ¬ pnl ≤ PaperRevised.STOP_LOSS_PERCENT →
        ¬ force < PaperRevised.EXIT_THRESHOLD →
        PaperRevised.exitDecision pnl force = none) ∧
    (∀ (s : Store) (t : String) (price force : ℚ) (trade : Position),
        firstOpenFor s t = some trade →
        pnlPercent trade.entryPrice price ≥ PaperRevised.TAKE_PROFIT_PERCENT →
        PaperRevised.managePositions s t price force =
          (closeFirstOpenFor t price s,
           [{ ticker := t, price := price, force := force, narrativeScore := 0,
              eventType := EventType.TAKE_PROFIT }])) ∧
    (∀ pnl force : ℚ, force < PaperV1.EXIT_THRESHOLD →
        PaperV1.exitDecision pnl force = some EventType.MOMENTUM_DIED) ∧
    (∀ pnl force : ℚ, ¬ force < PaperV1.EXIT_THRESHOLD →
        pnl ≤ PaperV1.STOP_LOSS_PERCENT →
        PaperV1.exitDecision pnl force = some EventType.STOP_LOSS) ∧
    (∀ pnl force : ℚ, ¬ force < PaperV1.EXIT_THRESHOLD →
        ¬ pnl ≤ PaperV1.STOP_LOSS_PERCENT →
        PaperV1.exitDecision pnl force = none) := by
  refine ⟨?_, ?_, ?_, ?_, ?_, ?_, ?_, ?_⟩
  · intro pnl force h
    simp [PaperRevised.exitDecision, h]
  · intro pnl force h1 h2
    simp [PaperRevised.exitDecision, h1, h2]
  · intro pnl force h1 h2 h3
    simp [PaperRevised.exitDecision, h1, h2, h3]
  · intro pnl force h1 h2 h3
    simp [PaperRevised.exitDecision, h1, h2, h3]
  · intro s t price force trade hfind hpnl
    unfold PaperRevised.managePositions
    rw [hfind]
    have hdec : PaperRevised.exitDecision (pnlPercent trade.entryPrice price)
        force = some EventType.TAKE_PROFIT := by
      simp [PaperRevised.exitDecision, hpnl]
    dsimp only
    rw [hdec]
  · intro pnl force h
    simp [PaperV1.exitDecision, h]
  · intro pnl force h1 h2
    simp [PaperV1.exitDecision, h1, h2]
  · intro pnl force h1 h2
    simp [PaperV1.exitDecision, h1, h2]

/-- Witness for C3 (amended): at `pnlPercent = 5` (above take-profit) and
`currentForce = 0` (momentum dead as well), the revised evaluation closes
with TAKE_PROFIT. -/
theorem exit_priority_rules_witness :
    PaperRevised.exitDecision 5 0 = some EventType.TAKE_PROFIT :=
  exit_priority_rules.1 5 0 (by norm_num [PaperRevised.TAKE_PROFIT_PERCENT])

/-- C9.  Within one sniper scan cycle for one ticker, a position opened by
the entry check (`hijackForce > ENTRY_THRESHOLD`, no pre-existing OPEN row)
cannot be closed by the exit check of the same cycle: its pnl is 0 at the
entry price (so neither take-profit-style nor stop-loss rules apply) and
its force exceeds `ENTRY_THRESHOLD > EXIT_THRESHOLD` (so momentum-died
cannot apply); the cycle ends with exactly that one OPEN row for the
ticker. -/
theorem no_entry_exit_same_cycle (s : Store) (a : PaperV1.LeaderboardEntry)
    (h0 : openForCount s a.ticker = 0)
    (hf : a.hijackForce > PaperV1.ENTRY_THRESHOLD) :
    PaperV1.evaluateAsset s a =
      s ++ [{ ticker := a.ticker, entryPrice := a.latestPrice,
              quantity := PaperV1.TRADE_SIZE_USD / a.latestPrice,
              forceAtEntry := a.hijackForce, status := Status.OPEN,
              exitPrice := none, profit := none }] ∧
    openForCount (PaperV1.evaluateAsset s a) a.ticker = 1 := by
  set row : Position :=
    { ticker := a.ticker, entryPrice := a.latestPrice,
      quantity := PaperV1.TRADE_SIZE_USD / a.latestPrice,
      forceAtEntry := a.hijackForce, status := Status.OPEN,
      exitPrice := none, profit := none } with hrow
  have hopen : PaperV1.openPosition s a.ticker a.latestPrice a.hijackForce =
      s ++ [row] := by
    unfold PaperV1.openPosition
    rw [if_neg (by omega), hrow]
  have hfind : firstOpenFor (s ++ [row]) a.ticker = some row := by
    rw [firstOpenFor_append,
      firstOpenFor_eq_none.mpr (openForCount_eq_zero.mp h0)]
    rw [Option.none_or, firstOpenFor_cons,
      if_pos (show isOpenFor a.ticker row from ⟨rfl, rfl⟩)]
  have hpnl : pnlPercent row.entryPrice a.latestPrice = 0 := by
    simp [pnlPercent, hrow]
  have hdec : PaperV1.exitDecision
      (pnlPercent row.entryPrice a.latestPrice) a.hijackForce = none := by
    rw [hpnl]
    have h1 : ¬ a.hijackForce < PaperV1.EXIT_THRESHOLD := by
      rw [not_lt]
      calc PaperV1.EXIT_THRESHOLD ≤ PaperV1.ENTRY_THRESHOLD := by
            norm_num [PaperV1.EXIT_THRESHOLD, PaperV1.ENTRY_THRESHOLD]
        _ ≤ a.hijackForce := le_of_lt hf
    have h2 : ¬ (0 : ℚ) ≤ PaperV1.STOP_LOSS_PERCENT := by
      norm_num [PaperV1.STOP_LOSS_PERCENT]
    simp [PaperV1.exitDecision, h1, h2]
  have hmanage : PaperV1.managePositions (s ++ [row]) a.ticker a.latestPrice
      a.hijackForce = s ++ [row] := by
    unfold PaperV1.managePositions
    rw [hfind]
    dsimp only
    rw [hdec]
  have heval : PaperV1.evaluateAsset s a = s ++ [row] := by
    unfold PaperV1.evaluateAsset
    rw [if_pos hf, hopen, hmanage]
  refine ⟨heval, ?_⟩
  rw [heval, openForCount_append, h0, openForCount_singleton,
    if_pos (show isOpenFor a.ticker row from ⟨rfl, rfl⟩)]

/-- Witness for C9: a favorable BTC row entering on an empty store stays
open through its own cycle's exit check. -/
theorem no_entry_exit_same_cycle_witness :
    PaperV1.evaluateAsset []
        { ticker := "BTC", hijackForce := 9 / 100, latestPrice := 100 } =
      [{ ticker := "BTC", entryPrice := 100,
         quantity := PaperV1.TRADE_SIZE_USD / 100, forceAtEntry := 9 / 100,
         status := Status.OPEN, exitPrice := none, profit := none }] :=
  (no_entry_exit_same_cycle []
      { ticker := "BTC", hijackForce := 9 / 100, latestPrice := 100 }
      (by simp [openForCount])
      (by norm_num [PaperV1.ENTRY_THRESHOLD])).1

/-- C5.  The force computation: for every value series of length ≥ 3 the
acceleration list has one entry per interior index with
`accel[i] = value[i+2] - 2*value[i+1] + value[i]` (uniform step h = 1), the
force is `|currentAccel| * log10(latestVolume)` when `latestVolume > 1` and
0 when `latestVolume ≤ 1`; for the series `[1,2,4,7,11]` the acceleration
sequence is `[1,1,1]` and with volume 1000 the force is exactly 3. -/
theorem force_computation_formula :
    (∀ (l : List ℝ) (i : ℕ), i + 2 < l.length →
        (calculateAcceleration 1 l).getD i 0 =
          l.getD (i + 2) 0 - 2 * l.getD (i + 1) 0 + l.getD i 0) ∧
    (∀ l : List ℝ, 3 ≤ l.length →
        (calculateAcceleration 1 l).length = l.length - 2) ∧
    (∀ (prices : List ℝ) (v : ℝ), v > 1 →
        hijackForceOf prices v = |currentAccelOf prices| * Real.logb 10 v) ∧
    (∀ (prices : List ℝ) (v : ℝ), v ≤ 1 → hijackForceOf prices v = 0) ∧
    calculateAcceleration 1 ([1, 2, 4, 7, 11] : List ℝ) = [1, 1, 1] ∧
    hijackForceOf ([1, 2, 4, 7, 11] : List ℝ) 1000 = 3 := by
  have hacc : calculateAcceleration 1 ([1, 2, 4, 7, 11] : List ℝ) = [1, 1, 1] := by
    norm_num [calculateAcceleration]
  refine ⟨?_, ?_, ?_, ?_, hacc, ?_⟩
  · intro l i hi
    rw [calculateAcceleration_getD 1 l i hi]
    norm_num
  · intro l _
    exact calculateAcceleration_length 1 l
  · intro prices v hv
    unfold hijackForceOf safeVolume
    rw [if_pos hv]
  · intro prices v hv
    unfold hijackForceOf safeVolume
    rw [if_neg (not_lt.mpr hv), mul_zero]
  · have hcur : currentAccelOf ([1, 2, 4, 7, 11] : List ℝ) = 1 := by
      unfold currentAccelOf
      rw [hacc]
      rfl
    unfold hijackForceOf safeVolume
    rw [hcur, if_pos (by norm_num : (1000 : ℝ) > 1), abs_one, one_mul]
    have h10 : (1000 : ℝ) = 10 ^ (3 : ℕ) := by norm_num
    rw [h10, Real.logb_pow, Real.logb_self_eq_one (by norm_num)]
    norm_num

/-- Witness for C5: the acceleration formula at interior index 0 of the
test series, and force 0 at a sub-unit volume. -/
theorem force_computation_formula_witness :
    (calculateAcceleration 1 ([1, 2, 4, 7, 11] : List ℝ)).getD 0 0 =
        ([1, 2, 4, 7, 11] : List ℝ).getD 2 0 -
          2 * ([1, 2, 4, 7, 11] : List ℝ).getD 1 0 +
          ([1, 2, 4, 7, 11] : List ℝ).getD 0 0 ∧
    hijackForceOf ([1, 2, 4, 7, 11] : List ℝ) (1 / 2) = 0 :=
  ⟨force_computation_formula.1 [1, 2, 4, 7, 11] 0 (by norm_num),
   force_computation_formula.2.2.2.1 [1, 2, 4, 7, 11] (1 / 2) (by norm_num)⟩

/-! ### Fusion voting lemmas -/

namespace AutoTrader

theorem totalWeight_nil : totalWeight [] = 0 := rfl

theorem totalWeight_cons (s : SignalSource) (l : List SignalSource) :
    totalWeight (s :: l) = s.weight + totalWeight l := by
  simp [totalWeight]

theorem polarityWeight_nil (g : Sig) : polarityWeight g [] = 0 := rfl

theorem polarityWeight_cons (g : Sig) (s : SignalSource) (l : List SignalSource) :
    polarityWeight g (s :: l) =
      (if s.signal = g then s.weight else 0) + polarityWeight g l := by
  unfold polarityWeight
  by_cases h : s.signal = g
  · simp [h, List.filter_cons]
  · simp [h, List.filter_cons]

theorem polarityWeight_nonneg (g : Sig) (l : List SignalSource)
    (hw : ∀ s ∈ l, 0 ≤ s.weight) : 0 ≤ polarityWeight g l := by
  induction l with
  | nil => exact le_refl 0
  | cons s l ih =>
    have hs := hw s (List.mem_cons_self s l)
    have ih' := ih (fun x hx => hw x (List.mem_cons_of_mem s hx))
    rw [polarityWeight_cons]
    have hite : 0 ≤ (if s.signal = g then s.weight else 0) := by
      split
      · exact hs
      · exact le_refl 0
    linarith

theorem totalWeight_nonneg (l : List SignalSource)
    (hw : ∀ s ∈ l, 0 ≤ s.weight) : 0 ≤ totalWeight l := by
  induction l with
  | nil => exact le_refl 0
  | cons s l ih =>
    have hs := hw s (List.mem_cons_self s l)
    have ih' := ih (fun x hx => hw x (List.mem_cons_of_mem s hx))
    rw [totalWeight_cons]
    linarith

theorem totalWeight_pos (l : List SignalSource)
    (hw : ∀ s ∈ l, 0 < s.weight) (hne : l ≠ []) : 0 < totalWeight l := by
  cases l with
  | nil => exact absurd rfl hne
  | cons s l =>
    have hs := hw s (List.mem_cons_self s l)
    have hl : 0 ≤ totalWeight l :=
      totalWeight_nonneg l
        (fun x hx => le_of_lt (hw x (List.mem_cons_of_mem s hx)))
    rw [totalWeight_cons]
    linarith

theorem bull_add_bear_le_total (l : List SignalSource)
    (hw : ∀ s ∈ l, 0 ≤ s.weight) :
    bullishWeight l + bearishWeight l ≤ totalWeight l := by
  induction l with
  | nil =>
    simp [bullishWeight, bearishWeight, polarityWeight_nil, totalWeight_nil]
  | cons s l ih =>
    have hs := hw s (List.mem_cons_self s l)
    have ih' := ih (fun x hx => hw x (List.mem_cons_of_mem s hx))
    unfold bullishWeight bearishWeight at ih' ⊢
    rw [polarityWeight_cons, polarityWeight_cons, totalWeight_cons]
    cases hsig : s.signal <;> simp [hsig] <;> linarith

theorem polarityWeight_eq_total_of_all (g : Sig) (l : List SignalSource)
    (hall : ∀ s ∈ l, s.signal = g) : polarityWeight g l = totalWeight l := by
  induction l with
  | nil => rfl
  | cons s l ih =>
    rw [polarityWeight_cons, totalWeight_cons,
      if_pos (hall s (List.mem_cons_self s l)),
      ih (fun x hx => hall x (List.mem_cons_of_mem s hx))]

theorem polarityWeight_eq_zero_of_all {g g' : Sig} (hgg : g' ≠ g)
    (l : List SignalSource) (hall : ∀ s ∈ l, s.signal = g') :
    polarityWeight g l = 0 := by
  induction l with
  | nil => rfl
  | cons s l ih =>
    rw [polarityWeight_cons,
      if_neg (by rw [hall s (List.mem_cons_self s l)]; exact hgg),
      ih (fun x hx => hall x (List.mem_cons_of_mem s hx))]
    ring

theorem weight_mem_buildSignals (ml : MLPrediction) (env : SourceReads) :
    ∀ s ∈ buildSignals ml env, s.weight = 30 ∨ s.weight = 20 ∨ s.weight = 15 := by
  intro s hs
  unfold buildSignals at hs
  simp only [List.mem_append] at hs
  rcases hs with ((((h | h) | h) | h) | h)
  · simp only [List.mem_singleton] at h
    subst h; left; rfl
  · cases hfg : env.fearGreed with
    | none => rw [hfg] at h; simp at h
    | some v =>
      rw [hfg] at h
      simp only [List.mem_singleton] at h
      subst h; right; left; rfl
  · cases hso : env.social with
    | none => rw [hso] at h; simp at h
    | some v =>
      rw [hso] at h
      simp only [List.mem_singleton] at h
      subst h; right; left; rfl
  · by_cases he : optionsEligible ml.ticker
    · rw [if_pos he] at h
      cases hop : env.options with
      | none => rw [hop] at h; simp at h
      | some v =>
        rw [hop] at h
        simp only [List.mem_singleton] at h
        subst h; right; right; rfl
    · rw [if_neg he] at h
      simp at h
  · cases hoc : env.onchain with
    | none => rw [hoc] at h; simp at h
    | some v =>
      rw [hoc] at h
      simp only [List.mem_singleton] at h
      subst h; right; right; rfl

theorem weight_pos_buildSignals (ml : MLPrediction) (env : SourceReads) :
    ∀ s ∈ buildSignals ml env, 0 < s.weight := by
  intro s hs
  rcases weight_mem_buildSignals ml env s hs with h | h | h <;> rw [h] <;> norm_num

theorem alignmentScoreOf_nonneg_le_100 (l : List SignalSource)
    (hw : ∀ s ∈ l, 0 ≤ s.weight) :
    0 ≤ alignmentScoreOf l ∧ alignmentScoreOf l ≤ 100 := by
  unfold alignmentScoreOf
  split
  · next hT =>
      have hb : 0 ≤ bullishWeight l := polarityWeight_nonneg _ l hw
      have hbe : 0 ≤ bearishWeight l := polarityWeight_nonneg _ l hw
      have hsum := bull_add_bear_le_total l hw
      have hmax : max (bullishWeight l) (bearishWeight l) ≤ totalWeight l :=
        max_le (by linarith) (by linarith)
      have hq0 : 0 ≤ max (bullishWeight l) (bearishWeight l) /
          totalWeight l * 100 := by
        have h1 : 0 ≤ max (bullishWeight l) (bearishWeight l) :=
          le_trans hb (le_max_left _ _)
        positivity
      have hq100 : max (bullishWeight l) (bearishWeight l) /
          totalWeight l * 100 ≤ 100 := by
        rw [div_mul_eq_mul_div, div_le_iff₀ hT]
        nlinarith
      constructor
      · rw [round_eq]
        exact Int.le_floor.mpr (by push_cast; linarith)
      · rw [round_eq]
        have hfl : ⌊max (bullishWeight l) (bearishWeight l) /
            totalWeight l * 100 + 1 / 2⌋ ≤ ⌊(100 : ℚ) + 1 / 2⌋ :=
          Int.floor_le_floor (by linarith)
        have h100 : ⌊(100 : ℚ) + 1 / 2⌋ = 100 := by norm_num
        omega
  · exact ⟨le_refl 0, by norm_num⟩

theorem alignmentScoreOf_eq_100_of_agree (l : List SignalSource)
    (hw : ∀ s ∈ l, 0 < s.weight) (hne : l ≠ [])
    (hall : (∀ s ∈ l, s.signal = Sig.BULLISH) ∨
            (∀ s ∈ l, s.signal = Sig.BEARISH)) :
    alignmentScoreOf l = 100 := by
  have hT : 0 < totalWeight l := totalWeight_pos l hw hne
  have hw' : ∀ s ∈ l, 0 ≤ s.weight := fun s hs => le_of_lt (hw s hs)
  have hdom : max (bullishWeight l) (bearishWeight l) = totalWeight l := by
    rcases hall with h | h
    · have h1 : bullishWeight l = totalWeight l :=
        polarityWeight_eq_total_of_all _ l h
      have h2 : bearishWeight l = 0 :=
        polarityWeight_eq_zero_of_all (by simp) l h
      rw [bullishWeight] at h1
      rw [bearishWeight] at h2
      unfold bullishWeight bearishWeight
      rw [h1, h2]
      exact max_eq_left (le_of_lt hT)
    · have h1 : bearishWeight l = totalWeight l :=
        polarityWeight_eq_total_of_all _ l h
      have h2 : bullishWeight l = 0 :=
        polarityWeight_eq_zero_of_all (by simp) l h
      unfold bullishWeight bearishWeight
      rw [bearishWeight] at h1
      rw [bullishWeight] at h2
      rw [h1, h2]
      exact max_eq_right (le_of_lt hT)
  unfold alignmentScoreOf
  rw [if_pos hT, hdom, div_self (ne_of_gt hT), one_mul]
  norm_num

/-- Destructing a successful `generateSignal` call. -/
theorem generateSignal_some {ml : MLPrediction} {env : SourceReads} {price : ℚ}
    {ts : TradeSignal} (h : generateSignal ml env price = some ts) :
    3 ≤ (buildSignals ml env).length ∧
    ts.signals = buildSignals ml env ∧
    ts.alignmentScore = alignmentScoreOf (buildSignals ml env) ∧
    ts.direction = (if bullishWeight (buildSignals ml env) >
        bearishWeight (buildSignals ml env) then TradeDirection.LONG
      else TradeDirection.SHORT) := by
  unfold generateSignal at h
  split at h
  · cases h
  · next hlen =>
      obtain rfl := Option.some.inj h
      exact ⟨by omega, rfl, rfl, rfl⟩

end AutoTrader

/-- C6.  Every TradeSignal produced by the fusion carries
`alignmentScore = round(max(bullishWeight, bearishWeight) / totalWeight * 100)`
over its contributing sources; that score lies in `[0, 100]`, and equals 100
whenever all contributing signals agree in polarity (all BULLISH or all
BEARISH). -/
theorem alignment_score_spec (ml : AutoTrader.MLPrediction)
    (env : AutoTrader.SourceReads) (price : ℚ) (ts : AutoTrader.TradeSignal)
    (h : AutoTrader.generateSignal ml env price = some ts) :
    ts.alignmentScore =
      round (max (AutoTrader.bullishWeight ts.signals)
          (AutoTrader.bearishWeight ts.signals) /
        AutoTrader.totalWeight ts.signals * 100) ∧
    0 ≤ ts.alignmentScore ∧ ts.alignmentScore ≤ 100 ∧
    (((∀ s ∈ ts.signals, s.signal = AutoTrader.Sig.BULLISH) ∨
        (∀ s ∈ ts.signals, s.signal = AutoTrader.Sig.BEARISH)) →
      ts.alignmentScore = 100) := by
  obtain ⟨hlen, hsig, hscore, _⟩ := AutoTrader.generateSignal_some h
  have hwpos := AutoTrader.weight_pos_buildSignals ml env
  have hw : ∀ s ∈ AutoTrader.buildSignals ml env, 0 ≤ s.weight :=
    fun s hs => le_of_lt (hwpos s hs)
  have hne : AutoTrader.buildSignals ml env ≠ [] := by
    intro hnil
    rw [hnil] at hlen
    simp at hlen
  have hT : 0 < AutoTrader.totalWeight (AutoTrader.buildSignals ml env) :=
    AutoTrader.totalWeight_pos _ hwpos hne
  obtain ⟨h0, h100⟩ := AutoTrader.alignmentScoreOf_nonneg_le_100 _ hw
  refine ⟨?_, ?_, ?_, ?_⟩
  · rw [hscore, hsig]
    unfold AutoTrader.alignmentScoreOf
    rw [if_pos hT]
  · rw [hscore]; exact h0
  · rw [hscore]; exact h100
  · intro hall
    rw [hsig] at hall
    rw [hscore]
    exact AutoTrader.alignmentScoreOf_eq_100_of_agree _ hwpos hne hall

/-- C10.  Once the 3-source guard passes, the fusion always commits to a
direction: whenever the summed bullish weight does not strictly exceed the
summed bearish weight (including the all-NEUTRAL tie `0 = 0`),
`generateSignal` returns a TradeSignal with direction SHORT — never a
neutral or abstaining direction. -/
theorem fusion_short_when_not_bullish (ml : AutoTrader.MLPrediction)
    (env : AutoTrader.SourceReads) (price : ℚ)
    (hlen : 3 ≤ (AutoTrader.buildSignals ml env).length)
    (hble : AutoTrader.bullishWeight (AutoTrader.buildSignals ml env) ≤
      AutoTrader.bearishWeight (AutoTrader.buildSignals ml env)) :
    ∃ ts, AutoTrader.generateSignal ml env price = some ts ∧
      ts.direction = AutoTrader.TradeDirection.SHORT := by
  unfold AutoTrader.generateSignal
  rw [if_neg (not_lt.mpr hlen)]
  refine ⟨_, rfl, ?_⟩
  dsimp only
  rw [if_neg (not_lt.mpr hble)]

/-- The five-source all-bullish vote list used in the C6 witness. -/
def allBullishVotes : List AutoTrader.SignalSource :=
  [{ source := "ML Predictor", signal := AutoTrader.Sig.BULLISH, weight := 30 },
   { source := "Fear & Greed", signal := AutoTrader.Sig.BULLISH, weight := 20 },
   { source := "Social Sentiment", signal := AutoTrader.Sig.BULLISH, weight := 20 },
   { source := "Options Flow", signal := AutoTrader.Sig.BULLISH, weight := 15 },
   { source := "On-Chain", signal := AutoTrader.Sig.BULLISH, weight := 15 }]

/-- Witness for C6: with a UP prediction and every auxiliary source bullish
(fear/greed 20, social +3, options BULLISH, on-chain 80 for BTC), the
produced signal's alignment score is exactly 100. -/
theorem alignment_score_spec_witness :
    ({ ticker := "BTC", direction := AutoTrader.TradeDirection.LONG,
       confidence := 80, alignmentScore := 100,
       signals := allBullishVotes,
       price := 100 } : AutoTrader.TradeSignal).alignmentScore = 100 := by
  have he : AutoTrader.optionsEligible "BTC" = true := by decide
  have hbuild : AutoTrader.buildSignals
      { ticker := "BTC", direction := AutoTrader.MLDirection.UP, confidence := 80 }
      { fearGreed := some 20, social := some 3,
        options := some AutoTrader.Sig.BULLISH, onchain := some 80 } =
      allBullishVotes := by
    norm_num [AutoTrader.buildSignals, he, AutoTrader.mlVote,
      AutoTrader.fearGreedVote, AutoTrader.socialVote, AutoTrader.onChainVote,
      allBullishVotes]
  have hbull : AutoTrader.bullishWeight allBullishVotes = 100 := by
    norm_num [AutoTrader.bullishWeight, AutoTrader.polarityWeight,
      allBullishVotes, List.filter_cons, List.filter_nil]
  have hbear : AutoTrader.bearishWeight allBullishVotes = 0 := by
    simp [AutoTrader.bearishWeight, AutoTrader.polarityWeight,
      allBullishVotes, List.filter_cons]
  have htot : AutoTrader.totalWeight allBullishVotes = 100 := by
    norm_num [AutoTrader.totalWeight, allBullishVotes]
  have hscore : AutoTrader.alignmentScoreOf allBullishVotes = 100 := by
    rw [AutoTrader.alignmentScoreOf, hbull, hbear, htot]
    norm_num
  have hts : AutoTrader.generateSignal
      { ticker := "BTC", direction := AutoTrader.MLDirection.UP, confidence := 80 }
      { fearGreed := some 20, social := some 3,
        options := some AutoTrader.Sig.BULLISH, onchain := some 80 } 100 =
      some { ticker := "BTC", direction := AutoTrader.TradeDirection.LONG,
             confidence := 80, alignmentScore := 100,
             signals := allBullishVotes, price := 100 } := by
    unfold AutoTrader.generateSignal
    rw [hbuild]
    rw [if_neg (by norm_num [allBullishVotes])]
    have hdir : (if AutoTrader.bullishWeight allBullishVotes >
        AutoTrader.bearishWeight allBullishVotes then
          AutoTrader.TradeDirection.LONG
        else AutoTrader.TradeDirection.SHORT) =
        AutoTrader.TradeDirection.LONG := by
      rw [hbull, hbear]
      norm_num
    rw [hdir, hscore]
  exact (alignment_score_spec _ _ _ _ hts).2.2.2
    (Or.inl (by decide))

/-- Witness for C10: every source votes NEUTRAL (tie 0 = 0), the guard sees
5 contributing sources, and the fusion returns a SHORT signal. -/
theorem fusion_short_when_not_bullish_witness :
    ∃ ts, AutoTrader.generateSignal
        { ticker := "BTC", direction := AutoTrader.MLDirection.NEUTRAL,
          confidence := 50 }
        { fearGreed := some 50, social := some 0,
          options := some AutoTrader.Sig.NEUTRAL, onchain := some 50 } 100 =
        some ts ∧
      ts.direction = AutoTrader.TradeDirection.SHORT :=
  fusion_short_when_not_bullish _ _ _ (by decide) (by decide)

end BrainHijack
